import Mathlib

/-!
Verification of the BrieflyAI / MangoDesk meeting-summarizer service.

The server (Express app) exposes three POST endpoints and a health check;
the React client holds the transcript/instruction/summary/recipients state.
We embed the request handlers as pure Lean functions over a small model of
JavaScript values, with the external completion provider and mail provider
passed in as function parameters, and record every outbound provider call
in the result so that "exactly one call" properties are statable.
-/

/-- Model of the JavaScript values that can appear in a parsed JSON request
body (plus `undefined` for an absent field after destructuring). -/
inductive JsValue where
  | undefined
  | null
  | bool (b : Bool)
  | num (n : Int)
  | str (s : String)
  | arr (xs : List JsValue)

/-- JavaScript truthiness: `undefined`, `null`, `false`, `0` and `""` are
falsy; every array (even empty) is truthy. -/
def jsTruthy : JsValue → Bool
  | .undefined => false
  | .null => false
  | .bool b => b
  | .num n => n != 0
  | .str s => s != ""
  | .arr _ => true

/-- `Array.isArray`. -/
def jsIsArray : JsValue → Bool
  | .arr _ => true
  | _ => false

/-- `.length` of an array value (only ever used under an `Array.isArray`
guard, as in the source). -/
def jsArrayLength : JsValue → Nat
  | .arr xs => xs.length
  | _ => 0

mutual

/-- JavaScript `String(v)` coercion, as used by template-literal
interpolation. -/
def jsToString : JsValue → String
  | .undefined => "undefined"
  | .null => "null"
  | .bool b => cond b "true" "false"
  | .num n => toString n
  | .str s => s
  | .arr xs => jsArrToString xs

/-- `Array.prototype.toString`, i.e. `join(",")`. -/
def jsArrToString : List JsValue → String
  | [] => ""
  | [x] => jsElemToString x
  | x :: xs => jsElemToString x ++ "," ++ jsArrToString xs

/-- How `Array.prototype.join` renders one element: `null` and `undefined`
become the empty string, everything else its string coercion. -/
def jsElemToString : JsValue → String
  | .undefined => ""
  | .null => ""
  | v => jsToString v

end

/-- `arr.join(sep)` for an array of JS values. -/
def jsJoinWith (sep : String) : List JsValue → String
  | [] => ""
  | [x] => jsElemToString x
  | x :: xs => jsElemToString x ++ sep ++ jsJoinWith sep xs

/-- The process environment the server reads per request: a variable is
either unset (`none`) or set to a string (falsy when empty). -/
structure Env where
  geminiApiKey : Option String
  emailUser : Option String
  emailPass : Option String

/-- Truthiness of `process.env.X`. -/
def envTruthy : Option String → Bool
  | none => false
  | some s => s != ""

/-! ## Route 1: POST /api/generate-summary -/

/-- The exact prompt template built by the generate-summary handler,
embedding the transcript and instruction as labeled sections. -/
def geminiPrompt (transcript instruction : String) : String :=
  "\nPlease analyze the following meeting transcript and provide a summary based on the given instruction.\n\nTRANSCRIPT:\n"
    ++ transcript
    ++ "\n\nINSTRUCTION:\n"
    ++ instruction
    ++ "\n\nPlease provide a clear, well-structured summary that follows the instruction above.\n"

/-- Body of a generate-summary JSON response. -/
inductive GenBody where
  | summary (text : String)
  | jsonError (msg : String)
deriving Repr, DecidableEq

/-- Result of one generate-summary request: HTTP status, JSON body, and the
list of prompts sent to the completion provider during the request. -/
structure GenResult where
  status : Nat
  body : GenBody
  providerCalls : List String
deriving Repr, DecidableEq

/-- The POST /api/generate-summary handler. `provider` models
`model.generateContent` followed by `response.text()`: it either returns the
generated text or fails with an internal error detail (caught by the
handler's catch block). -/
def generateSummaryHandler (env : Env) (provider : String → Except String String)
    (transcript instruction : JsValue) : GenResult :=
  if !jsTruthy transcript || !jsTruthy instruction then
    ⟨400, .jsonError "Transcript and instruction are required", []⟩
  else if !envTruthy env.geminiApiKey then
    ⟨500, .jsonError "Gemini API key not configured", []⟩
  else
    let prompt := geminiPrompt (jsToString transcript) (jsToString instruction)
    match provider prompt with
    | .ok text => ⟨200, .summary text, [prompt]⟩
    | .error _ => ⟨500, .jsonError "Failed to generate summary. Please try again.", [prompt]⟩

/-! ## Route 2: POST /api/send-email -/

/-- The `mailOptions` object handed to `transporter.sendMail` (`fromAddr`
and `toAddr` embed the source's `from` and `to` fields, which are reserved
words in Lean). -/
structure MailOptions where
  fromAddr : Option String
  toAddr : String
  subject : String
  html : String
deriving Repr, DecidableEq

/-- The exact HTML template of the outgoing mail, with the summary
interpolated verbatim into a preformatted block. -/
def mailHtml (summary : String) : String :=
  "\n        <div style=\"font-family: Arial, sans-serif; max-width: 600px; margin: 0 auto;\">\n          <h2 style=\"color: #333;\">Meeting Summary</h2>\n          <div style=\"background-color: #f9f9f9; padding: 20px; border-radius: 5px; margin: 20px 0;\">\n            <pre style=\"white-space: pre-wrap; font-family: inherit; margin: 0;\">"
    ++ summary
    ++ "</pre>\n          </div>\n          <p style=\"color: #666; font-size: 14px;\">\n            This summary was generated using MangoDesk AI Meeting Summarizer.\n          </p>\n        </div>\n      "

/-- Body of a send-email JSON response. -/
inductive EmailBody where
  | sent (success : Bool) (message : String)
  | jsonError (msg : String)
deriving Repr, DecidableEq

/-- Result of one send-email request: HTTP status, JSON body, and the list
of outbound messages handed to the mail provider during the request. -/
structure EmailResult where
  status : Nat
  body : EmailBody
  mailCalls : List MailOptions
deriving Repr, DecidableEq

/-- The `mailOptions` object literal built by the send-email handler for a
given request: sender from the environment, all recipients joined with
`", "` into the single `to` field, fixed subject, and the HTML template
with the summary interpolated. -/
def mailOptionsFor (env : Env) (summary recipients : JsValue) : MailOptions :=
  { fromAddr := env.emailUser
    toAddr := jsJoinWith ", " (match recipients with | .arr xs => xs | _ => [])
    subject := "Meeting Summary - MangoDesk"
    html := mailHtml (jsToString summary) }

/-- The POST /api/send-email handler. `mailer` models
`transporter.sendMail`: success or an internal error detail caught by the
handler's catch block. -/
def sendEmailHandler (env : Env) (mailer : MailOptions → Except String Unit)
    (summary recipients : JsValue) : EmailResult :=
  if !jsTruthy summary || !jsTruthy recipients || !jsIsArray recipients
      || jsArrayLength recipients == 0 then
    ⟨400, .jsonError "Summary and at least one recipient email are required", []⟩
  else if !envTruthy env.emailUser || !envTruthy env.emailPass then
    ⟨500, .jsonError "Email configuration not set up", []⟩
  else
    match mailer (mailOptionsFor env summary recipients) with
    | .ok _ => ⟨200, .sent true "Email sent successfully", [mailOptionsFor env summary recipients]⟩
    | .error _ =>
        ⟨500, .jsonError "Failed to send email. Please check your email configuration.",
          [mailOptionsFor env summary recipients]⟩

/-- Every address in the list occurs (as a character sequence) inside the
`", "`-join of the list, so the joint `to` field contains all recipients. -/
theorem mem_data_infix_jsJoinWith (sep : String) (addrs : List String) (a : String)
    (ha : a ∈ addrs) :
    a.data <:+: (jsJoinWith sep (addrs.map JsValue.str)).data := by
  induction addrs with
  | nil => cases ha
  | cons b rest ih =>
    cases rest with
    | nil =>
      rcases List.mem_singleton.mp ha with rfl
      simp [jsJoinWith, jsElemToString, jsToString]
    | cons c rest' =>
      have hstep : jsJoinWith sep ((b :: c :: rest').map JsValue.str)
          = jsElemToString (.str b) ++ sep ++ jsJoinWith sep ((c :: rest').map JsValue.str) := by
        simp [jsJoinWith]
      rcases List.mem_cons.mp ha with rfl | hmem
      · have h2 : (jsElemToString (.str a) ++ sep ++ jsJoinWith sep ((c :: rest').map JsValue.str)).data
            = a.data ++ (sep.data ++ (jsJoinWith sep ((c :: rest').map JsValue.str)).data) := by
          simp [jsElemToString, jsToString, String.data_append]
        rw [hstep, h2]
        exact (List.prefix_append _ _).isInfix
      · have htail := ih hmem
        have h2 : (jsElemToString (.str b) ++ sep ++ jsJoinWith sep ((c :: rest').map JsValue.str)).data
            = ((jsElemToString (.str b)).data ++ sep.data)
                ++ (jsJoinWith sep ((c :: rest').map JsValue.str)).data := by
          simp [String.data_append]
        rw [hstep, h2]
        exact htail.trans (List.suffix_append _ _).isInfix

/-! ## Claim theorems for the two JSON endpoints -/

/-- Claim C1: for every valid send-email request (truthy summary, non-empty
array of recipient addresses, mail credentials configured, provider
success), the handler issues exactly one mail call whose `to` field is the
`", "`-join of all recipients (each address occurs in it), and responds
200 with success true and message "Email sent successfully". -/
theorem sendEmail_valid_one_joint_call
    (env : Env) (mailer : MailOptions → Except String Unit)
    (summary : JsValue) (addrs : List String)
    (hsum : jsTruthy summary = true) (hne : addrs ≠ [])
    (huser : envTruthy env.emailUser = true) (hpass : envTruthy env.emailPass = true)
    (hok : mailer (mailOptionsFor env summary (.arr (addrs.map JsValue.str))) = .ok ()) :
    sendEmailHandler env mailer summary (.arr (addrs.map JsValue.str)) =
      ⟨200, .sent true "Email sent successfully",
        [mailOptionsFor env summary (.arr (addrs.map JsValue.str))]⟩ ∧
    (mailOptionsFor env summary (.arr (addrs.map JsValue.str))).toAddr
      = jsJoinWith ", " (addrs.map JsValue.str) ∧
    ∀ a ∈ addrs,
      a.data <:+: (mailOptionsFor env summary (.arr (addrs.map JsValue.str))).toAddr.data := by
  refine ⟨?_, rfl, ?_⟩
  · have harr : jsTruthy (JsValue.arr (addrs.map JsValue.str)) = true := rfl
    have hisarr : jsIsArray (JsValue.arr (addrs.map JsValue.str)) = true := rfl
    have hlen : (jsArrayLength (JsValue.arr (addrs.map JsValue.str)) == 0) = false := by
      simp [jsArrayLength, hne]
    simp [sendEmailHandler, hsum, harr, hisarr, hlen, huser, hpass, hok]
  · intro a ha
    have h := mem_data_infix_jsJoinWith ", " addrs a ha
    simpa [mailOptionsFor] using h

/-- Witness for C1 at a concrete request with two recipients. -/
theorem sendEmail_valid_one_joint_call_witness :
    sendEmailHandler ⟨none, some "u", some "p"⟩ (fun _ => .ok ()) (.str "sum")
        (.arr (["a@x.com", "b@x.com"].map JsValue.str)) =
      ⟨200, .sent true "Email sent successfully",
        [mailOptionsFor ⟨none, some "u", some "p"⟩ (.str "sum")
          (.arr (["a@x.com", "b@x.com"].map JsValue.str))]⟩ ∧
    (mailOptionsFor ⟨none, some "u", some "p"⟩ (.str "sum")
        (.arr (["a@x.com", "b@x.com"].map JsValue.str))).toAddr
      = jsJoinWith ", " (["a@x.com", "b@x.com"].map JsValue.str) ∧
    ∀ a ∈ ["a@x.com", "b@x.com"],
      a.data <:+: (mailOptionsFor ⟨none, some "u", some "p"⟩ (.str "sum")
        (.arr (["a@x.com", "b@x.com"].map JsValue.str))).toAddr.data :=
  sendEmail_valid_one_joint_call ⟨none, some "u", some "p"⟩ (fun _ => .ok ())
    (.str "sum") ["a@x.com", "b@x.com"] rfl (by decide) rfl rfl rfl

/-- Claim C2: for every valid generate-summary request (truthy transcript
and instruction, provider credential configured, provider success), the
handler issues exactly one provider call with the single prompt embedding
transcript and instruction as labeled sections plus the fixed directive,
and responds 200 with the provider's text verbatim. -/
theorem generateSummary_valid_verbatim
    (env : Env) (provider : String → Except String String)
    (transcript instruction : JsValue) (text : String)
    (ht : jsTruthy transcript = true) (hi : jsTruthy instruction = true)
    (hk : envTruthy env.geminiApiKey = true)
    (hp : provider (geminiPrompt (jsToString transcript) (jsToString instruction))
      = .ok text) :
    generateSummaryHandler env provider transcript instruction =
      ⟨200, .summary text,
        [geminiPrompt (jsToString transcript) (jsToString instruction)]⟩ ∧
    geminiPrompt (jsToString transcript) (jsToString instruction) =
      "\nPlease analyze the following meeting transcript and provide a summary based on the given instruction.\n\nTRANSCRIPT:\n"
        ++ jsToString transcript
        ++ "\n\nINSTRUCTION:\n"
        ++ jsToString instruction
        ++ "\n\nPlease provide a clear, well-structured summary that follows the instruction above.\n" := by
  refine ⟨?_, rfl⟩
  simp [generateSummaryHandler, ht, hi, hk, hp]

/-- Witness for C2 at a concrete request. -/
theorem generateSummary_valid_verbatim_witness :
    generateSummaryHandler ⟨some "k", none, none⟩ (fun _ => .ok "the result")
        (.str "t") (.str "i") =
      ⟨200, .summary "the result", [geminiPrompt (jsToString (.str "t")) (jsToString (.str "i"))]⟩ ∧
    geminiPrompt (jsToString (.str "t")) (jsToString (.str "i")) =
      "\nPlease analyze the following meeting transcript and provide a summary based on the given instruction.\n\nTRANSCRIPT:\n"
        ++ jsToString (.str "t")
        ++ "\n\nINSTRUCTION:\n"
        ++ jsToString (.str "i")
        ++ "\n\nPlease provide a clear, well-structured summary that follows the instruction above.\n" :=
  generateSummary_valid_verbatim ⟨some "k", none, none⟩ (fun _ => .ok "the result")
    (.str "t") (.str "i") "the result" rfl rfl rfl rfl

/-- Claim C3: whenever transcript or instruction is absent or falsy, the
generate-summary handler responds 400 with exactly "Transcript and
instruction are required" and makes no provider call. -/
theorem generateSummary_missing_fields_400
    (env : Env) (provider : String → Except String String)
    (transcript instruction : JsValue)
    (h : jsTruthy transcript = false ∨ jsTruthy instruction = false) :
    generateSummaryHandler env provider transcript instruction =
      ⟨400, .jsonError "Transcript and instruction are required", []⟩ := by
  rcases h with h | h <;> simp [generateSummaryHandler, h]

/-- Witness for C3: absent (undefined) transcript. -/
theorem generateSummary_missing_fields_400_witness :
    generateSummaryHandler ⟨some "k", none, none⟩ (fun _ => .ok "x")
        .undefined (.str "i") =
      ⟨400, .jsonError "Transcript and instruction are required", []⟩ :=
  generateSummary_missing_fields_400 ⟨some "k", none, none⟩ (fun _ => .ok "x")
    .undefined (.str "i") (Or.inl rfl)

/-- Claim C4: whenever recipients is absent, not an array, or an empty
array (or summary is falsy/absent), the send-email handler responds 400
with exactly "Summary and at least one recipient email are required" and
makes no mail call. Absence is the `undefined` value, which is not an
array, so the first disjunct covers it. -/
theorem sendEmail_invalid_recipients_400
    (env : Env) (mailer : MailOptions → Except String Unit)
    (summary recipients : JsValue)
    (h : jsIsArray recipients = false ∨ recipients = .arr [] ∨ jsTruthy summary = false) :
    sendEmailHandler env mailer summary recipients =
      ⟨400, .jsonError "Summary and at least one recipient email are required", []⟩ := by
  rcases h with h | h | h
  · simp [sendEmailHandler, h]
  · subst h
    simp [sendEmailHandler, jsTruthy, jsIsArray, jsArrayLength]
  · simp [sendEmailHandler, h]

/-- Witness for C4: recipients is a non-array string. -/
theorem sendEmail_invalid_recipients_400_witness :
    sendEmailHandler ⟨none, some "u", some "p"⟩ (fun _ => .ok ())
        (.str "sum") (.str "a@x.com") =
      ⟨400, .jsonError "Summary and at least one recipient email are required", []⟩ :=
  sendEmail_invalid_recipients_400 ⟨none, some "u", some "p"⟩ (fun _ => .ok ())
    (.str "sum") (.str "a@x.com") (Or.inl rfl)

/-- Claim C9: a present-but-falsy summary (for instance the empty string)
gets the same 400 missing-field response as an absent one, with no mail
call: only truthiness of the value matters, not presence of the key. -/
theorem sendEmail_falsy_summary_400
    (env : Env) (mailer : MailOptions → Except String Unit)
    (summary recipients : JsValue)
    (h : jsTruthy summary = false) :
    sendEmailHandler env mailer summary recipients =
      ⟨400, .jsonError "Summary and at least one recipient email are required", []⟩ := by
  simp [sendEmailHandler, h]

/-- Witness for C9: summary is the empty string, recipients well-formed. -/
theorem sendEmail_falsy_summary_400_witness :
    sendEmailHandler ⟨none, some "u", some "p"⟩ (fun _ => .ok ())
        (.str "") (.arr [.str "a@x.com"]) =
      ⟨400, .jsonError "Summary and at least one recipient email are required", []⟩ :=
  sendEmail_falsy_summary_400 ⟨none, some "u", some "p"⟩ (fun _ => .ok ())
    (.str "") (.arr [.str "a@x.com"]) rfl

/-- Claim C7: on any provider failure during a valid request, each endpoint
responds 500 with its fixed generic message; the response is a constant
independent of the provider's error detail, which never reaches the
client-visible body. -/
theorem provider_failure_generic_500
    (env : Env) (provider : String → Except String String)
    (mailer : MailOptions → Except String Unit)
    (transcript instruction summary recipients : JsValue)
    (genDetail mailDetail : String)
    (ht : jsTruthy transcript = true) (hi : jsTruthy instruction = true)
    (hk : envTruthy env.geminiApiKey = true)
    (hgen : provider (geminiPrompt (jsToString transcript) (jsToString instruction))
      = .error genDetail)
    (hsum : jsTruthy summary = true) (hrec : jsTruthy recipients = true)
    (harr : jsIsArray recipients = true) (hlen : jsArrayLength recipients ≠ 0)
    (huser : envTruthy env.emailUser = true) (hpass : envTruthy env.emailPass = true)
    (hmail : mailer (mailOptionsFor env summary recipients) = .error mailDetail) :
    generateSummaryHandler env provider transcript instruction =
      ⟨500, .jsonError "Failed to generate summary. Please try again.",
        [geminiPrompt (jsToString transcript) (jsToString instruction)]⟩ ∧
    sendEmailHandler env mailer summary recipients =
      ⟨500, .jsonError "Failed to send email. Please check your email configuration.",
        [mailOptionsFor env summary recipients]⟩ := by
  constructor
  · simp [generateSummaryHandler, ht, hi, hk, hgen]
  · simp [sendEmailHandler, hsum, hrec, harr, hlen, huser, hpass, hmail]

/-- Witness for C7 at concrete failing providers with distinct error
details. -/
theorem provider_failure_generic_500_witness :
    generateSummaryHandler ⟨some "k", some "u", some "p"⟩ (fun _ => .error "quota exceeded")
        (.str "t") (.str "i") =
      ⟨500, .jsonError "Failed to generate summary. Please try again.",
        [geminiPrompt (jsToString (.str "t")) (jsToString (.str "i"))]⟩ ∧
    sendEmailHandler ⟨some "k", some "u", some "p"⟩ (fun _ => .error "smtp timeout")
        (.str "sum") (.arr [.str "a@x.com"]) =
      ⟨500, .jsonError "Failed to send email. Please check your email configuration.",
        [mailOptionsFor ⟨some "k", some "u", some "p"⟩ (.str "sum") (.arr [.str "a@x.com"])]⟩ :=
  provider_failure_generic_500 ⟨some "k", some "u", some "p"⟩
    (fun _ => .error "quota exceeded") (fun _ => .error "smtp timeout")
    (.str "t") (.str "i") (.str "sum") (.arr [.str "a@x.com"])
    "quota exceeded" "smtp timeout" rfl rfl rfl rfl rfl rfl rfl (by decide) rfl rfl rfl

/-- Claim C10: any non-empty recipients array passes validation with no
per-entry checks; its elements, whatever their contents, are joined with
`", "` into the single `to` field of the one outbound message. -/
theorem sendEmail_no_per_entry_validation
    (env : Env) (mailer : MailOptions → Except String Unit)
    (summary : JsValue) (l : List JsValue)
    (hsum : jsTruthy summary = true) (hne : l ≠ [])
    (huser : envTruthy env.emailUser = true) (hpass : envTruthy env.emailPass = true)
    (hok : mailer (mailOptionsFor env summary (.arr l)) = .ok ()) :
    sendEmailHandler env mailer summary (.arr l) =
      ⟨200, .sent true "Email sent successfully", [mailOptionsFor env summary (.arr l)]⟩ ∧
    (mailOptionsFor env summary (.arr l)).toAddr = jsJoinWith ", " l := by
  refine ⟨?_, rfl⟩
  have harr : jsTruthy (JsValue.arr l) = true := rfl
  have hisarr : jsIsArray (JsValue.arr l) = true := rfl
  have hlen : (jsArrayLength (JsValue.arr l) == 0) = false := by
    simp [jsArrayLength, hne]
  simp [sendEmailHandler, hsum, harr, hisarr, hlen, huser, hpass, hok]

/-- Witness for C10: a recipients array holding only the empty string
passes validation and is sent (its join being the empty `to` field). -/
theorem sendEmail_no_per_entry_validation_witness :
    sendEmailHandler ⟨none, some "u", some "p"⟩ (fun _ => .ok ())
        (.str "sum") (.arr [.str ""]) =
      ⟨200, .sent true "Email sent successfully",
        [mailOptionsFor ⟨none, some "u", some "p"⟩ (.str "sum") (.arr [.str ""])]⟩ ∧
    (mailOptionsFor ⟨none, some "u", some "p"⟩ (.str "sum") (.arr [.str ""])).toAddr
      = jsJoinWith ", " [.str ""] :=
  sendEmail_no_per_entry_validation ⟨none, some "u", some "p"⟩ (fun _ => .ok ())
    (.str "sum") [.str ""] rfl (List.cons_ne_nil _ _) rfl rfl rfl

/-! ## Presentation layer (React client) -/

/-- JavaScript `String.prototype.trim`, embedded over the character list. -/
def jsTrim (s : String) : String :=
  ⟨((s.data.dropWhile Char.isWhitespace).reverse.dropWhile Char.isWhitespace).reverse⟩

/-- JavaScript `String.prototype.endsWith`, embedded over the character
list. -/
def jsEndsWith (s pat : String) : Bool :=
  pat.data.isSuffixOf s.data

/-- The metadata of a chosen file the client pre-check looks at: declared
MIME type (`file.type`) and file name (`file.name`). -/
structure ClientFile where
  type : String
  name : String

/-- The rejection condition of `handleFileUpload`:
`file.type !== 'text/plain' && !file.name.endsWith('.txt')`. -/
def clientPreCheckRejects (f : ClientFile) : Bool :=
  f.type != "text/plain" && !(jsEndsWith f.name ".txt")

/-- The client-side pre-check accepts a file (proceeds to upload it) when
the rejection condition does not hold. -/
def clientPreCheckAccepts (f : ClientFile) : Bool :=
  !clientPreCheckRejects f

/-- The server-side multer `fileFilter`: accept exactly the declared MIME
types `text/plain` and `application/octet-stream`. -/
def fileFilterAccepts (mimetype : String) : Bool :=
  mimetype == "text/plain" || mimetype == "application/octet-stream"

/-- The client pre-check in positive form: declared type `text/plain` or a
name ending in `.txt`. -/
theorem clientPreCheckAccepts_eq (f : ClientFile) :
    clientPreCheckAccepts f = ((f.type == "text/plain") || jsEndsWith f.name ".txt") := by
  simp [clientPreCheckAccepts, clientPreCheckRejects, bne]

/-- The client recipient-related state: the accumulated recipient list and
the current text-field input. -/
structure AppState where
  recipients : List String
  recipientInput : String

/-- `addRecipient`: trim the input; append it to the recipient list and
clear the input only when it is non-empty and not already present. -/
def addRecipient (s : AppState) : AppState :=
  let email := jsTrim s.recipientInput
  if email != "" && !(s.recipients.contains email) then
    { recipients := s.recipients ++ [email], recipientInput := "" }
  else s

/-- `removeRecipient`: delete every entry equal to the given address. -/
def removeRecipient (s : AppState) (email : String) : AppState :=
  { s with recipients := s.recipients.filter (fun r => r != email) }

/-- Claim C6 counterexample: a file named `notes.txt` but declared
`application/pdf` passes the client pre-check (the name ends in `.txt`)
while the server's file filter rejects it, so the two checks are not
equivalent. -/
theorem client_server_precheck_not_equivalent :
    clientPreCheckAccepts ⟨"application/pdf", "notes.txt"⟩ = true ∧
    fileFilterAccepts "application/pdf" = false := by decide

/-- Claim C6 (amended): the client pre-check (declared type `text/plain`
or name ending in `.txt`) agrees with the server file filter (declared
type `text/plain` or `application/octet-stream`) exactly on the files
whose declared type is `text/plain` or whose name ends in `.txt` precisely
when the declared type is `application/octet-stream`; the checks are not
equivalent in general. -/
theorem client_server_precheck_agree_iff (f : ClientFile) :
    (clientPreCheckAccepts f = fileFilterAccepts f.type) ↔
      ((f.type == "text/plain") = true ∨
        jsEndsWith f.name ".txt" = (f.type == "application/octet-stream")) := by
  rw [clientPreCheckAccepts_eq]
  simp only [fileFilterAccepts]
  generalize (f.type == "text/plain") = a
  generalize (f.type == "application/octet-stream") = b
  generalize jsEndsWith f.name ".txt" = e
  cases a <;> cases b <;> cases e <;> simp

/-- Claim C8: adding an already-present address (exact match after
trimming) leaves the recipient set unchanged; an empty-after-trimming
candidate is never added; from an empty set, adding a non-empty address
twice yields a set of size 1, and removing it afterwards by exact match
yields the empty set. -/
theorem recipient_set_accumulation (s : AppState) :
    (jsTrim s.recipientInput ∈ s.recipients → (addRecipient s).recipients = s.recipients) ∧
    (jsTrim s.recipientInput = "" → (addRecipient s).recipients = s.recipients) ∧
    (s.recipients = [] → jsTrim s.recipientInput ≠ "" →
      (addRecipient s).recipients.length = 1 ∧
      (addRecipient ⟨(addRecipient s).recipients, s.recipientInput⟩).recipients
        = (addRecipient s).recipients ∧
      (removeRecipient (addRecipient s) (jsTrim s.recipientInput)).recipients = []) := by
  refine ⟨?_, ?_, ?_⟩
  · intro h
    simp [addRecipient, h]
  · intro h
    simp [addRecipient, h]
  · intro hrec hne
    have hadd : addRecipient s = ⟨[jsTrim s.recipientInput], ""⟩ := by
      simp [addRecipient, hrec, hne]
    refine ⟨?_, ?_, ?_⟩
    · simp [hadd]
    · rw [hadd]
      have hc : [jsTrim s.recipientInput].contains (jsTrim s.recipientInput) = true := by
        simp
      simp [addRecipient, hc]
    · rw [hadd]
      simp [removeRecipient]

/-- Witness for C8 at the concrete address "a@x.com" added to an empty
set, added again, then removed. -/
theorem recipient_set_accumulation_witness :
    (addRecipient ⟨[], "a@x.com"⟩).recipients.length = 1 ∧
    (addRecipient ⟨(addRecipient ⟨[], "a@x.com"⟩).recipients, "a@x.com"⟩).recipients
      = (addRecipient ⟨[], "a@x.com"⟩).recipients ∧
    (removeRecipient (addRecipient ⟨[], "a@x.com"⟩) (jsTrim "a@x.com")).recipients = [] :=
  (recipient_set_accumulation ⟨[], "a@x.com"⟩).2.2 rfl (by decide)

/-! ## Route 3: POST /api/upload-transcript

The uploaded file's bytes are decoded as UTF-8
(`req.file.buffer.toString('utf-8')`). We embed the decoder over byte
lists, producing unicode scalar values, with the replacement character for
malformed sequences; on well-formed UTF-8 it is exact (and we prove it
inverts encoding). -/

/-- U+FFFD, emitted for malformed byte sequences. -/
def replacementChar : Nat := 0xFFFD

/-- Decode one scalar starting at lead byte `b` with the following bytes
`rest`: returns the scalar value and how many bytes of `rest` were
consumed beyond the lead byte. -/
def utf8DecodeOne (b : Nat) (rest : List Nat) : Nat × Nat :=
  if b < 0x80 then (b, 0)
  else if b < 0xC2 then (replacementChar, 0)
  else if b < 0xE0 then
    match rest with
    | b1 :: _ =>
      if 0x80 ≤ b1 ∧ b1 < 0xC0 then ((b - 0xC0) * 64 + (b1 - 0x80), 1)
      else (replacementChar, 0)
    | _ => (replacementChar, 0)
  else if b < 0xF0 then
    match rest with
    | b1 :: b2 :: _ =>
      if 0x80 ≤ b1 ∧ b1 < 0xC0 ∧ 0x80 ≤ b2 ∧ b2 < 0xC0 then
        if (b - 0xE0) * 4096 + (b1 - 0x80) * 64 + (b2 - 0x80) < 0x800
            ∨ (0xD800 ≤ (b - 0xE0) * 4096 + (b1 - 0x80) * 64 + (b2 - 0x80)
                ∧ (b - 0xE0) * 4096 + (b1 - 0x80) * 64 + (b2 - 0x80) < 0xE000) then
          (replacementChar, 0)
        else ((b - 0xE0) * 4096 + (b1 - 0x80) * 64 + (b2 - 0x80), 2)
      else (replacementChar, 0)
    | _ => (replacementChar, 0)
  else if b < 0xF5 then
    match rest with
    | b1 :: b2 :: b3 :: _ =>
      if 0x80 ≤ b1 ∧ b1 < 0xC0 ∧ 0x80 ≤ b2 ∧ b2 < 0xC0 ∧ 0x80 ≤ b3 ∧ b3 < 0xC0 then
        if (b - 0xF0) * 262144 + (b1 - 0x80) * 4096 + (b2 - 0x80) * 64 + (b3 - 0x80) < 0x10000
            ∨ 0x110000 ≤ (b - 0xF0) * 262144 + (b1 - 0x80) * 4096 + (b2 - 0x80) * 64 + (b3 - 0x80) then
          (replacementChar, 0)
        else ((b - 0xF0) * 262144 + (b1 - 0x80) * 4096 + (b2 - 0x80) * 64 + (b3 - 0x80), 3)
      else (replacementChar, 0)
    | _ => (replacementChar, 0)
  else (replacementChar, 0)

/-- Lossy UTF-8 decoding of a byte list into unicode scalar values. -/
def utf8DecodeBytes : List Nat → List Nat
  | [] => []
  | b :: rest =>
    (utf8DecodeOne b rest).1
      :: utf8DecodeBytes (rest.drop (utf8DecodeOne b rest).2)
termination_by l => l.length
decreasing_by
  simp only [List.length_cons, List.length_drop]
  omega

/-- UTF-8 encoding of one unicode scalar value. -/
def utf8EncodeScalar (c : Nat) : List Nat :=
  if c < 0x80 then [c]
  else if c < 0x800 then [0xC0 + c / 64, 0x80 + c % 64]
  else if c < 0x10000 then [0xE0 + c / 4096, 0x80 + (c / 64) % 64, 0x80 + c % 64]
  else [0xF0 + c / 262144, 0x80 + (c / 4096) % 64, 0x80 + (c / 64) % 64, 0x80 + c % 64]

/-- UTF-8 encoding of a scalar-value sequence. -/
def utf8Encode : List Nat → List Nat
  | [] => []
  | c :: cs => utf8EncodeScalar c ++ utf8Encode cs

/-- Decoding inverts encoding one scalar at a time: decoding the encoding
of a valid scalar followed by any bytes yields the scalar and continues
with those bytes. -/
theorem utf8DecodeBytes_encodeScalar_append (c : Nat) (bs : List Nat)
    (h1 : c < 0x110000) (h2 : ¬(0xD800 ≤ c ∧ c < 0xE000)) :
    utf8DecodeBytes (utf8EncodeScalar c ++ bs) = c :: utf8DecodeBytes bs := by
  by_cases hA : c < 0x80
  · have he : utf8EncodeScalar c = [c] := by simp [utf8EncodeScalar, hA]
    rw [he]
    simp only [List.cons_append, List.nil_append, utf8DecodeBytes]
    have hone : utf8DecodeOne c bs = (c, 0) := by simp [utf8DecodeOne, hA]
    rw [hone]
    simp
  by_cases hB : c < 0x800
  · have he : utf8EncodeScalar c = [0xC0 + c / 64, 0x80 + c % 64] := by
      simp [utf8EncodeScalar, hA, hB]
    rw [he]
    simp only [List.cons_append, List.nil_append, utf8DecodeBytes]
    have hone : utf8DecodeOne (0xC0 + c / 64) ((0x80 + c % 64) :: bs) = (c, 1) := by
      have d1 : ¬(0xC0 + c / 64 < 0x80) := by omega
      have d2 : ¬(0xC0 + c / 64 < 0xC2) := by omega
      have d3 : 0xC0 + c / 64 < 0xE0 := by omega
      have d4 : 0x80 ≤ 0x80 + c % 64 ∧ 0x80 + c % 64 < 0xC0 := by omega
      simp only [utf8DecodeOne, d1, d2, d3, d4, if_neg, if_pos, if_true, if_false,
        not_false_eq_true]
      simp
      omega
    rw [hone]
    simp
  by_cases hC : c < 0x10000
  · have he : utf8EncodeScalar c
        = [0xE0 + c / 4096, 0x80 + (c / 64) % 64, 0x80 + c % 64] := by
      simp [utf8EncodeScalar, hA, hB, hC]
    rw [he]
    simp only [List.cons_append, List.nil_append, utf8DecodeBytes]
    have hone : utf8DecodeOne (0xE0 + c / 4096)
        ((0x80 + (c / 64) % 64) :: (0x80 + c % 64) :: bs) = (c, 2) := by
      have d1 : ¬(0xE0 + c / 4096 < 0x80) := by omega
      have d2 : ¬(0xE0 + c / 4096 < 0xC2) := by omega
      have d3 : ¬(0xE0 + c / 4096 < 0xE0) := by omega
      have d4 : 0xE0 + c / 4096 < 0xF0 := by omega
      have d5 : 0x80 ≤ 0x80 + (c / 64) % 64 ∧ 0x80 + (c / 64) % 64 < 0xC0
          ∧ 0x80 ≤ 0x80 + c % 64 ∧ 0x80 + c % 64 < 0xC0 := by omega
      have hval : (0xE0 + c / 4096 - 0xE0) * 4096 + (0x80 + (c / 64) % 64 - 0x80) * 64
          + (0x80 + c % 64 - 0x80) = c := by omega
      have d6 : ¬(c < 0x800 ∨ (0xD800 ≤ c ∧ c < 0xE000)) := by omega
      simp only [utf8DecodeOne, d1, d2, d3, d4, d5, hval, d6, if_neg, if_pos, if_true,
        if_false, not_false_eq_true]
      simp
    rw [hone]
    simp
  · have he : utf8EncodeScalar c
        = [0xF0 + c / 262144, 0x80 + (c / 4096) % 64, 0x80 + (c / 64) % 64, 0x80 + c % 64] := by
      simp [utf8EncodeScalar, hA, hB, hC]
    rw [he]
    simp only [List.cons_append, List.nil_append, utf8DecodeBytes]
    have hone : utf8DecodeOne (0xF0 + c / 262144)
        ((0x80 + (c / 4096) % 64) :: (0x80 + (c / 64) % 64) :: (0x80 + c % 64) :: bs)
        = (c, 3) := by
      have d1 : ¬(0xF0 + c / 262144 < 0x80) := by omega
      have d2 : ¬(0xF0 + c / 262144 < 0xC2) := by omega
      have d3 : ¬(0xF0 + c / 262144 < 0xE0) := by omega
      have d4 : ¬(0xF0 + c / 262144 < 0xF0) := by omega
      have d5 : 0xF0 + c / 262144 < 0xF5 := by omega
      have d6 : 0x80 ≤ 0x80 + (c / 4096) % 64 ∧ 0x80 + (c / 4096) % 64 < 0xC0
          ∧ 0x80 ≤ 0x80 + (c / 64) % 64 ∧ 0x80 + (c / 64) % 64 < 0xC0
          ∧ 0x80 ≤ 0x80 + c % 64 ∧ 0x80 + c % 64 < 0xC0 := by omega
      have hval : (0xF0 + c / 262144 - 0xF0) * 262144 + (0x80 + (c / 4096) % 64 - 0x80) * 4096
          + (0x80 + (c / 64) % 64 - 0x80) * 64 + (0x80 + c % 64 - 0x80) = c := by omega
      have d7 : ¬(c < 0x10000 ∨ 0x110000 ≤ c) := by omega
      simp only [utf8DecodeOne, d1, d2, d3, d4, d5, d6, hval, d7, if_neg, if_pos, if_true,
        if_false, not_false_eq_true]
      simp
    rw [hone]
    simp

/-- Decoding inverts encoding on any sequence of valid unicode scalar
values: UTF-8 decoding is exact, with no loss or normalization, on
well-formed input. -/
theorem utf8DecodeBytes_utf8Encode (cs : List Nat)
    (h : ∀ c ∈ cs, c < 0x110000 ∧ ¬(0xD800 ≤ c ∧ c < 0xE000)) :
    utf8DecodeBytes (utf8Encode cs) = cs := by
  induction cs with
  | nil => simp [utf8Encode, utf8DecodeBytes]
  | cons c cs ih =>
    have hc := h c (by simp)
    rw [utf8Encode, utf8DecodeBytes_encodeScalar_append c (utf8Encode cs) hc.1 hc.2,
      ih (fun c' hc' => h c' (by simp [hc']))]

/-- An uploaded file part as multer presents it: declared MIME type and the
buffered bytes. -/
structure UploadedFile where
  mimetype : String
  bytes : List Nat

/-- Body of an upload-transcript JSON response; the transcript carries the
decoded unicode scalar values. -/
inductive UploadBody where
  | transcriptBody (codepoints : List Nat)
  | jsonError (msg : String)
deriving Repr, DecidableEq

/-- Result of one upload-transcript request. -/
structure UploadResult where
  status : Nat
  body : UploadBody
deriving Repr, DecidableEq

/-- The catch-all Express error-handling middleware registered after the
routes: any error forwarded by a middleware or route is answered with a
generic 500 response. -/
def errorMiddlewareResponse : UploadResult :=
  ⟨500, .jsonError "Internal server error"⟩

/-- The POST /api/upload-transcript route as composed in the app:
`upload.single('transcript')` runs first (fileFilter on the declared MIME
type and the 5 MB size ceiling; an error from either is forwarded to the
catch-all error middleware), then the handler 400s on a missing file and
otherwise decodes the buffer as UTF-8 into the response. -/
def uploadTranscriptRoute (file : Option UploadedFile) : UploadResult :=
  match file with
  | none => ⟨400, .jsonError "No file uploaded"⟩
  | some f =>
    if !fileFilterAccepts f.mimetype then errorMiddlewareResponse
    else if f.bytes.length > 5 * 1024 * 1024 then errorMiddlewareResponse
    else ⟨200, .transcriptBody (utf8DecodeBytes f.bytes)⟩


/-- Claim C5: a file part declared `application/pdf` is rejected by the
multer fileFilter, but the resulting error reaches the catch-all error
middleware, so the client receives 500 "Internal server error" — not the
400 "Only .txt files are allowed" that the claim (and the repository's own
supertest expectation) states. Files declared `text/plain` or
`application/octet-stream` do succeed with 200 and the transcript is the
file's bytes decoded as UTF-8 exactly (here "hi€" as its 5-byte UTF-8
encoding). -/
theorem upload_pdf_500_not_400_txt_ok :
    uploadTranscriptRoute (some ⟨"application/pdf", [37, 80, 68, 70]⟩)
      = ⟨500, .jsonError "Internal server error"⟩ ∧
    uploadTranscriptRoute (some ⟨"application/pdf", [37, 80, 68, 70]⟩)
      ≠ ⟨400, .jsonError "Only .txt files are allowed"⟩ ∧
    utf8Encode [104, 105, 0x20AC] = [104, 105, 0xE2, 0x82, 0xAC] ∧
    uploadTranscriptRoute (some ⟨"text/plain", utf8Encode [104, 105, 0x20AC]⟩)
      = ⟨200, .transcriptBody [104, 105, 0x20AC]⟩ ∧
    uploadTranscriptRoute (some ⟨"application/octet-stream", [104, 105]⟩)
      = ⟨200, .transcriptBody [104, 105]⟩ := by
  refine ⟨by decide, by decide, by decide, ?_, ?_⟩
  · have henc : utf8Encode [104, 105, 0x20AC] = [104, 105, 0xE2, 0x82, 0xAC] := by decide
    rw [henc]
    have hdec : utf8DecodeBytes [104, 105, 0xE2, 0x82, 0xAC] = [104, 105, 0x20AC] := by
      rw [← henc]
      exact utf8DecodeBytes_utf8Encode [104, 105, 0x20AC] (by decide)
    simp [uploadTranscriptRoute, fileFilterAccepts, hdec]
  · simp [uploadTranscriptRoute, fileFilterAccepts, utf8DecodeBytes, utf8DecodeOne]
